import Mathlib

/-!
# Reservation service

A shallow embedding of `internal/services/reservation.go` (package `services`):
the four methods of `reservationService` as pure functions on an explicit
state of the two backing stores, and the properties of the booking protocol
checked against them.

The `context.Context` argument of every method is not read by any body and is
left out. A Go result `(T, error)` is a pair whose last component is
`Option GoError`, with `none` for the `nil` error. A `nil` slice result is the
empty list.
-/

set_option linter.unusedVariables false

namespace MovieReservation

/-! ## Errors -/

/-- Go error values. `New` is a value made by `errors.New` when the package is
initialised (the sentinels of the `var` block); `Errorf` is a value made by
`fmt.Errorf` during a call. Values made by different calls to a constructor
function are different pointers, so an `Errorf` value is never equal to a
sentinel. -/
inductive GoError where
  | New (msg : String)
  | Errorf (msg : String)
  deriving DecidableEq, Repr

/-- The `Error()` text of an error value. -/
def GoError.Error : GoError → String
  | GoError.New msg => msg
  | GoError.Errorf msg => msg

def ErrSeatUnavailable : GoError := GoError.New "one or more seats are unavailable"

def ErrReservationNotFound : GoError := GoError.New "reservation not found"

def ErrNotYourReservation : GoError := GoError.New "reservation belongs to another user"

/-- One `time.Minute`, in nanoseconds (the unit of `time.Duration`). -/
def Minute : Nat := 60 * 1000000000

/-- The constant `seatLockTTL = 10 * time.Minute`. -/
def seatLockTTL : Nat := 10 * Minute

/-! ## Data model -/

/-- Modelled from the spec: the status of a seat (`models.Seat.Status`, whose
declaration is in package `models`), one of AVAILABLE and RESERVED. -/
inductive SeatStatus where
  | AVAILABLE
  | RESERVED
  deriving DecidableEq, Repr

/-- Modelled from the spec: the status of a reservation, one of PENDING,
CONFIRMED and CANCELLED. -/
inductive ReservationStatus where
  | PENDING
  | CONFIRMED
  | CANCELLED
  deriving DecidableEq, Repr

/-- Modelled from the spec: `models.Seat`, a seat with its identity, its
showtime and its status. -/
structure Seat where
  ID : String
  ShowtimeID : String
  Status : SeatStatus
  deriving DecidableEq, Repr

/-- Modelled from the spec: a reservation row of the Resource Store, with its
identity, owning caller, seat ids, status and expiry time (nanoseconds). -/
structure Reservation where
  ID : String
  UserID : String
  SeatIDs : List String
  Status : ReservationStatus
  ExpiresAt : Nat
  deriving DecidableEq, Repr

/-- Modelled from the spec: `models.LockSeatsRequest`, the showtime and the
seat ids a caller asks to hold. -/
structure LockSeatsRequest where
  ShowtimeID : String
  SeatIDs : List String
  deriving DecidableEq, Repr

/-- Modelled from the spec: an entry of the Fast Lock Store, a key with the
claiming caller as value and the time at which it expires. -/
structure LockEntry where
  key : String
  value : String
  expiresAt : Nat
  deriving DecidableEq, Repr

/-- The state the service works on: the seat and reservation rows of the
Resource Store (`db`, `seatRepo`, `resRepo`), the entries of the Fast Lock
Store (`rdb`) and the wall clock. -/
structure World where
  seats : List Seat
  reservations : List Reservation
  locks : List LockEntry
  now : Nat
  deriving DecidableEq, Repr

/-- The lock key of a seat, `fmt.Sprintf("seat_lock:%s", seatID)`. -/
def lockKey (seatID : String) : String := "seat_lock:" ++ seatID

/-! ## The four operations -/

/-- The method `reservationService.LockSeats`. Its body is the single statement
`return "", fmt.Errorf("TODO: implement LockSeats")`; the steps above it are
comments. -/
def LockSeats (w : World) (userID : String) (req : LockSeatsRequest) :
    World × String × Option GoError :=
  (w, "", some (GoError.Errorf "TODO: implement LockSeats"))

/-- The method `reservationService.ConfirmReservation`. Its body is the single
statement `return fmt.Errorf("TODO: implement ConfirmReservation")`. -/
def ConfirmReservation (w : World) (reservationID userID : String) :
    World × Option GoError :=
  (w, some (GoError.Errorf "TODO: implement ConfirmReservation"))

/-- The method `reservationService.GetAvailableSeats`. Its body is the single
statement `return nil, fmt.Errorf("TODO: implement GetAvailableSeats")`. -/
def GetAvailableSeats (w : World) (showtimeID : String) :
    World × List Seat × Option GoError :=
  (w, [], some (GoError.Errorf "TODO: implement GetAvailableSeats"))

/-- The method `reservationService.CancelReservation`. Its body is the single
statement `return fmt.Errorf("TODO: implement CancelReservation")`. -/
def CancelReservation (w : World) (reservationID : String) :
    World × Option GoError :=
  (w, some (GoError.Errorf "TODO: implement CancelReservation"))

/-! ## Sequences of calls -/

/-- A call of one of the four operations of `ReservationService`. -/
inductive Call where
  | lockSeats (userID : String) (req : LockSeatsRequest)
  | confirmReservation (reservationID userID : String)
  | getAvailableSeats (showtimeID : String)
  | cancelReservation (reservationID : String)
  deriving DecidableEq, Repr

/-- The state after one call. -/
def step (w : World) : Call → World
  | Call.lockSeats userID req => (LockSeats w userID req).1
  | Call.confirmReservation reservationID userID =>
      (ConfirmReservation w reservationID userID).1
  | Call.getAvailableSeats showtimeID => (GetAvailableSeats w showtimeID).1
  | Call.cancelReservation reservationID => (CancelReservation w reservationID).1

/-- The state after a finite sequence of calls, first call first. -/
def run (w : World) (calls : List Call) : World :=
  calls.foldl step w

/-! ## Predicates on states -/

/-- The status of the seat with the given id in the Resource Store, if the
seat exists. -/
def seatStatus (w : World) (seatID : String) : Option SeatStatus :=
  (w.seats.find? (fun s => s.ID == seatID)).map (fun s => s.Status)

/-- Whether the Fast Lock Store holds an entry under the lock key of the
seat. -/
def isLocked (w : World) (seatID : String) : Bool :=
  w.locks.any (fun e => e.key == lockKey seatID)

/-- An initial state: all seats AVAILABLE, no reservations, no locks. -/
def Initial (w : World) : Prop :=
  (∀ s ∈ w.seats, s.Status = SeatStatus.AVAILABLE) ∧ w.reservations = [] ∧ w.locks = []

/-- Every seat of every CONFIRMED reservation is RESERVED in the Resource
Store. -/
def ConfirmedSeatsReserved (w : World) : Prop :=
  ∀ r ∈ w.reservations, r.Status = ReservationStatus.CONFIRMED →
    ∀ sid ∈ r.SeatIDs, seatStatus w sid = some SeatStatus.RESERVED

/-- No two distinct CONFIRMED reservations share a seat id. -/
def ConfirmedDisjoint (w : World) : Prop :=
  ∀ r₁ ∈ w.reservations, ∀ r₂ ∈ w.reservations, r₁ ≠ r₂ →
    r₁.Status = ReservationStatus.CONFIRMED → r₂.Status = ReservationStatus.CONFIRMED →
    ∀ sid ∈ r₁.SeatIDs, sid ∉ r₂.SeatIDs

/-! ## Example data -/

def seat1 : Seat := ⟨"seat1", "showtime1", SeatStatus.AVAILABLE⟩

def seat2 : Seat := ⟨"seat2", "showtime1", SeatStatus.AVAILABLE⟩

/-- A fresh showtime with two seats; nothing reserved, nothing locked. -/
def freshWorld : World :=
  { seats := [seat1, seat2], reservations := [], locks := [], now := 0 }

/-- A sequence with one call of each operation. -/
def sampleCalls : List Call :=
  [ Call.lockSeats "userA" ⟨"showtime1", ["seat1", "seat2"]⟩,
    Call.getAvailableSeats "showtime1",
    Call.confirmReservation "R" "userA",
    Call.cancelReservation "R" ]

/-- The result of one `LockSeats` call: the reservation id and the error. -/
abbrev LockResult := String × Option GoError

/-- Two `LockSeats` calls running concurrently on the same stores. The body of
`LockSeats` is one `return` statement that reads and writes neither store, so
a call is a single step and the executions of two concurrent calls are the two
orders of these steps. Each execution gives the final state, the result of the
first caller and the result of the second caller. -/
def LockSeatsConcurrent (w : World) (user₁ : String) (req₁ : LockSeatsRequest)
    (user₂ : String) (req₂ : LockSeatsRequest) : List (World × LockResult × LockResult) :=
  let a := LockSeats w user₁ req₁
  let b := LockSeats a.1 user₂ req₂
  let d := LockSeats w user₂ req₂
  let c := LockSeats d.1 user₁ req₁
  [(b.1, a.2, b.2), (c.1, c.2, d.2)]

/-- The seat list the contract of `GetAvailableSeats` describes, in the spec's
words: the seats of the showtime that are AVAILABLE in the Resource Store and
whose lock key is absent from the Fast Lock Store. -/
def availableSeatsSpec (w : World) (showtimeID : String) : List Seat :=
  w.seats.filter (fun s =>
    s.ShowtimeID == showtimeID && s.Status == SeatStatus.AVAILABLE && !isLocked w s.ID)

/-- The reservation with the given id in the Resource Store, if there is
one. -/
def findReservation (w : World) (reservationID : String) : Option Reservation :=
  w.reservations.find? (fun r => r.ID == reservationID)

/-- The request of both seats of the fresh showtime. -/
def reqBoth : LockSeatsRequest := ⟨"showtime1", ["seat1", "seat2"]⟩

/-- The request of the first seat of the fresh showtime. -/
def reqSeat1 : LockSeatsRequest := ⟨"showtime1", ["seat1"]⟩

/-- A showtime whose first seat is already RESERVED. -/
def reservedWorld : World :=
  { seats := [⟨"seat1", "showtime1", SeatStatus.RESERVED⟩, seat2],
    reservations := [], locks := [], now := 0 }

def seatA : Seat := ⟨"A", "showtime1", SeatStatus.AVAILABLE⟩

def seatB : Seat := ⟨"B", "showtime1", SeatStatus.AVAILABLE⟩

def seatC : Seat := ⟨"C", "showtime1", SeatStatus.AVAILABLE⟩

/-- The lock `userB` holds on seat C. -/
def lockC : LockEntry := ⟨"seat_lock:C", "userB", seatLockTTL⟩

/-- A showtime with seats A, B and C, all AVAILABLE, where `userB` holds the
lock of C. -/
def contendedWorld : World :=
  { seats := [seatA, seatB, seatC], reservations := [], locks := [lockC], now := 0 }

/-- The request of seats A, B and C. -/
def reqABC : LockSeatsRequest := ⟨"showtime1", ["A", "B", "C"]⟩

/-- The reservation R of `userA` over seat1, still PENDING. -/
def pendingR : Reservation :=
  ⟨"R", "userA", ["seat1"], ReservationStatus.PENDING, seatLockTTL⟩

/-- The lock `userA` holds on seat1. -/
def lock1 : LockEntry := ⟨"seat_lock:seat1", "userA", seatLockTTL⟩

/-- The stores after `userA` has been granted the hold R on seat1: the seat is
AVAILABLE, the reservation is PENDING and the lock entry is present. -/
def pendingWorld : World :=
  { seats := [seat1, seat2], reservations := [pendingR], locks := [lock1], now := 0 }

/-- The reservation R of `userA` over seat1, CONFIRMED. -/
def confirmedR : Reservation :=
  ⟨"R", "userA", ["seat1"], ReservationStatus.CONFIRMED, seatLockTTL⟩

/-- The stores after R has been confirmed: seat1 is RESERVED, the reservation
is CONFIRMED and the lock entry is gone. -/
def confirmedWorld : World :=
  { seats := [⟨"seat1", "showtime1", SeatStatus.RESERVED⟩, seat2],
    reservations := [confirmedR], locks := [], now := 0 }

/-- The error `ConfirmReservation` is to return for a reservation that is not
PENDING, `errors.New("reservation already processed")` in the comment of its
step 2. The `Bool` tells whether an error value is that error, which is made
during the call and so recognised by its text. -/
def isAlreadyProcessed (e : Option GoError) : Bool :=
  match e with
  | some err => err.Error == "reservation already processed"
  | none => false

/-- The sentinel errors of the `var` block of the package. -/
def sentinels : List GoError :=
  [ErrSeatUnavailable, ErrReservationNotFound, ErrNotYourReservation]

/-- An error result is a TODO error with the given text when it is non-nil,
was made by `fmt.Errorf` during the call with that text, and is none of the
sentinels. -/
def IsTodoError (e : Option GoError) (msg : String) : Prop :=
  e ≠ none ∧ e = some (GoError.Errorf msg) ∧ ∀ s ∈ sentinels, e ≠ some s

/-! ## Lemmas on sequences of calls -/

theorem step_world (w : World) (c : Call) : step w c = w := by
  cases c <;> rfl

theorem run_world (w : World) (calls : List Call) : run w calls = w := by
  induction calls with
  | nil => rfl
  | cons c cs ih => simpa [run, step_world] using ih

theorem freshWorld_initial : Initial freshWorld := by
  refine ⟨?_, rfl, rfl⟩
  intro s hs
  simp only [freshWorld, List.mem_cons, List.mem_singleton, List.not_mem_nil, or_false] at hs
  rcases hs with rfl | rfl <;> rfl

/-! ## C1: the confirmed-reservation invariant -/

/-- C1. In every state reached from an initial state (all seats AVAILABLE, no
reservations, no locks) by a finite sequence of LockSeats, ConfirmReservation,
GetAvailableSeats and CancelReservation calls, every seat of every CONFIRMED
reservation is RESERVED and no two distinct CONFIRMED reservations share a
seat id. -/
theorem confirmed_invariant_of_reachable (w : World) (calls : List Call)
    (hinit : Initial w) :
    ConfirmedSeatsReserved (run w calls) ∧ ConfirmedDisjoint (run w calls) := by
  rw [run_world]
  obtain ⟨_, hres, _⟩ := hinit
  constructor
  · intro r hr
    rw [hres] at hr
    exact absurd hr (List.not_mem_nil r)
  · intro r₁ hr₁
    rw [hres] at hr₁
    exact absurd hr₁ (List.not_mem_nil r₁)

/-- The invariant of C1 at the fresh showtime after one call of each
operation. -/
theorem confirmed_invariant_of_reachable_witness :
    Initial freshWorld ∧
      ConfirmedSeatsReserved (run freshWorld sampleCalls) ∧
      ConfirmedDisjoint (run freshWorld sampleCalls) :=
  ⟨freshWorld_initial,
    confirmed_invariant_of_reachable freshWorld sampleCalls freshWorld_initial⟩

/-! ## C2: two concurrent LockSeats calls -/

/-- C2. When `userA` and `userB` concurrently call LockSeats for overlapping
seat sets of the fresh showtime, then in both executions neither call returns
a reservation id and neither returns ErrSeatUnavailable: both return the empty
id with the error "TODO: implement LockSeats", and the stores are unchanged.
The claim asks that the call which gets no id returns SeatUnavailable. -/
theorem lockSeats_concurrent_no_loser_error :
    LockSeatsConcurrent freshWorld "userA" reqBoth "userB" reqSeat1 =
        [ (freshWorld, ("", some (GoError.Errorf "TODO: implement LockSeats")),
            ("", some (GoError.Errorf "TODO: implement LockSeats"))),
          (freshWorld, ("", some (GoError.Errorf "TODO: implement LockSeats")),
            ("", some (GoError.Errorf "TODO: implement LockSeats"))) ] ∧
      some (GoError.Errorf "TODO: implement LockSeats") ≠ some ErrSeatUnavailable ∧
      "seat1" ∈ reqBoth.SeatIDs ∧ "seat1" ∈ reqSeat1.SeatIDs := by
  refine ⟨rfl, ?_, ?_, ?_⟩
  · simp [ErrSeatUnavailable]
  · simp [reqBoth]
  · simp [reqSeat1]

/-! ## C3: LockSeats on free seats -/

/-- C3. At the fresh showtime both requested seats are AVAILABLE and unlocked
and the request is non-empty, yet LockSeats returns the empty reservation id
with a non-nil error, and the Resource Store holds no reservation afterwards.
The claim asks for a new reservation id, no error, and a PENDING reservation
of the caller over the requested seats expiring at call time plus
seatLockTTL. -/
theorem lockSeats_free_seats_returns_error :
    reqBoth.SeatIDs ≠ [] ∧
      (reqBoth.SeatIDs.map (seatStatus freshWorld) =
        [some SeatStatus.AVAILABLE, some SeatStatus.AVAILABLE]) ∧
      (reqBoth.SeatIDs.map (isLocked freshWorld) = [false, false]) ∧
      LockSeats freshWorld "userA" reqBoth =
        (freshWorld, "", some (GoError.Errorf "TODO: implement LockSeats")) ∧
      (LockSeats freshWorld "userA" reqBoth).2.2 ≠ none ∧
      (LockSeats freshWorld "userA" reqBoth).1.reservations = [] := by
  refine ⟨?_, ?_, ?_, rfl, ?_, rfl⟩
  · simp [reqBoth]
  · simp [reqBoth, seatStatus, freshWorld, seat1, seat2]
  · simp [reqBoth, isLocked, freshWorld]
  · simp [LockSeats]

/-! ## C4: LockSeats on a seat that is not AVAILABLE -/

/-- C4. In a showtime whose seat1 is RESERVED, LockSeats for seat1 leaves the
Fast Lock Store unchanged but fails with the error "TODO: implement
LockSeats", which is not ErrSeatUnavailable. The claim asks for
ErrSeatUnavailable. -/
theorem lockSeats_reserved_seat_wrong_error :
    seatStatus reservedWorld "seat1" = some SeatStatus.RESERVED ∧
      LockSeats reservedWorld "userB" reqSeat1 =
        (reservedWorld, "", some (GoError.Errorf "TODO: implement LockSeats")) ∧
      (LockSeats reservedWorld "userB" reqSeat1).2.2 ≠ some ErrSeatUnavailable ∧
      (LockSeats reservedWorld "userB" reqSeat1).1.locks = reservedWorld.locks := by
  refine ⟨?_, rfl, ?_, rfl⟩
  · simp [seatStatus, reservedWorld]
  · simp [LockSeats, ErrSeatUnavailable]

/-! ## C5: rollback after a failed claim -/

/-- C5. With seats A, B and C AVAILABLE and C locked by `userB`, the call
LockSeats([A,B,C]) of `userA` adds no lock entry but returns the error "TODO:
implement LockSeats", which is not ErrSeatUnavailable, and the GetAvailableSeats
call that follows returns an error and an empty list that holds neither A nor
B. The claim asks for SeatUnavailable and for A and B to be listed. -/
theorem lockSeats_contended_then_available :
    isLocked contendedWorld "C" = true ∧
      LockSeats contendedWorld "userA" reqABC =
        (contendedWorld, "", some (GoError.Errorf "TODO: implement LockSeats")) ∧
      (LockSeats contendedWorld "userA" reqABC).2.2 ≠ some ErrSeatUnavailable ∧
      GetAvailableSeats (LockSeats contendedWorld "userA" reqABC).1 "showtime1" =
        (contendedWorld, [], some (GoError.Errorf "TODO: implement GetAvailableSeats")) ∧
      seatA ∉ (GetAvailableSeats (LockSeats contendedWorld "userA" reqABC).1 "showtime1").2.1 ∧
      seatB ∉ (GetAvailableSeats (LockSeats contendedWorld "userA" reqABC).1 "showtime1").2.1 ∧
      availableSeatsSpec contendedWorld "showtime1" = [seatA, seatB] := by
  refine ⟨?_, rfl, ?_, rfl, ?_, ?_, ?_⟩
  · simp [isLocked, contendedWorld, lockC, lockKey]
  · simp [LockSeats, ErrSeatUnavailable]
  · simp [GetAvailableSeats]
  · simp [GetAvailableSeats]
  · simp [availableSeatsSpec, isLocked, contendedWorld, lockC, lockKey, seatA, seatB, seatC]

/-! ## C6: confirming twice -/

/-- C6. For the PENDING reservation R of `userA`, the first call
ConfirmReservation(R, userA) returns the error "TODO: implement
ConfirmReservation" instead of success and leaves R PENDING and seat1
AVAILABLE; the second call returns the same error, which is not the error
"reservation already processed". The claim asks for success, R CONFIRMED and
seat1 RESERVED after the first call, and AlreadyProcessed from the second. -/
theorem confirmReservation_twice_both_fail :
    findReservation pendingWorld "R" = some pendingR ∧
      ConfirmReservation pendingWorld "R" "userA" =
        (pendingWorld, some (GoError.Errorf "TODO: implement ConfirmReservation")) ∧
      (ConfirmReservation pendingWorld "R" "userA").2 ≠ none ∧
      (findReservation (ConfirmReservation pendingWorld "R" "userA").1 "R").map
          (fun r => r.Status) = some ReservationStatus.PENDING ∧
      seatStatus (ConfirmReservation pendingWorld "R" "userA").1 "seat1" =
        some SeatStatus.AVAILABLE ∧
      ConfirmReservation (ConfirmReservation pendingWorld "R" "userA").1 "R" "userA" =
        (pendingWorld, some (GoError.Errorf "TODO: implement ConfirmReservation")) ∧
      isAlreadyProcessed
        (ConfirmReservation (ConfirmReservation pendingWorld "R" "userA").1 "R" "userA").2 =
          false := by
  refine ⟨?_, rfl, ?_, ?_, ?_, rfl, ?_⟩
  · simp [findReservation, pendingWorld, pendingR]
  · simp [ConfirmReservation]
  · simp [ConfirmReservation, findReservation, pendingWorld, pendingR]
  · simp [ConfirmReservation, seatStatus, pendingWorld, seat1]
  · simp [ConfirmReservation, isAlreadyProcessed, GoError.Error]

/-! ## C7: confirming the reservation of another caller -/

/-- C7. For the PENDING reservation R of `userA`, the call
ConfirmReservation(R, userB) leaves the stores unchanged but returns the error
"TODO: implement ConfirmReservation", which is not ErrNotYourReservation. The
claim asks for ErrNotYourReservation. -/
theorem confirmReservation_other_caller_wrong_error :
    (findReservation pendingWorld "R").map (fun r => (r.UserID, r.Status)) =
        some ("userA", ReservationStatus.PENDING) ∧
      "userB" ≠ "userA" ∧
      ConfirmReservation pendingWorld "R" "userB" =
        (pendingWorld, some (GoError.Errorf "TODO: implement ConfirmReservation")) ∧
      (ConfirmReservation pendingWorld "R" "userB").2 ≠ some ErrNotYourReservation := by
  refine ⟨?_, ?_, rfl, ?_⟩
  · simp [findReservation, pendingWorld, pendingR]
  · decide
  · simp [ConfirmReservation, ErrNotYourReservation]

/-! ## C8: cancelling a reservation that is not PENDING -/

/-- C8. For the CONFIRMED reservation R, CancelReservation(R) leaves the
stores unchanged but returns the non-nil error "TODO: implement
CancelReservation", on the first call and on the call that follows it. The
claim asks for success (no error). -/
theorem cancelReservation_confirmed_returns_error :
    (findReservation confirmedWorld "R").map (fun r => r.Status) =
        some ReservationStatus.CONFIRMED ∧
      CancelReservation confirmedWorld "R" =
        (confirmedWorld, some (GoError.Errorf "TODO: implement CancelReservation")) ∧
      (CancelReservation confirmedWorld "R").2 ≠ none ∧
      CancelReservation (CancelReservation confirmedWorld "R").1 "R" =
        (confirmedWorld, some (GoError.Errorf "TODO: implement CancelReservation")) ∧
      (CancelReservation (CancelReservation confirmedWorld "R").1 "R").2 ≠ none := by
  refine ⟨?_, rfl, ?_, rfl, ?_⟩
  · simp [findReservation, confirmedWorld, confirmedR]
  · simp [CancelReservation]
  · simp [CancelReservation]

/-! ## C9: cancelling a PENDING reservation -/

/-- C9. For the PENDING reservation R over seat1, CancelReservation(R) returns
the non-nil error "TODO: implement CancelReservation", R stays PENDING, the
lock entry of seat1 stays in the Fast Lock Store, and the GetAvailableSeats
call that follows returns an error and a list without seat1. The claim asks
for success, R CANCELLED, the lock entry removed and seat1 listed again. -/
theorem cancelReservation_pending_returns_error :
    (findReservation pendingWorld "R").map (fun r => r.Status) =
        some ReservationStatus.PENDING ∧
      CancelReservation pendingWorld "R" =
        (pendingWorld, some (GoError.Errorf "TODO: implement CancelReservation")) ∧
      (CancelReservation pendingWorld "R").2 ≠ none ∧
      (findReservation (CancelReservation pendingWorld "R").1 "R").map
          (fun r => r.Status) = some ReservationStatus.PENDING ∧
      isLocked (CancelReservation pendingWorld "R").1 "seat1" = true ∧
      GetAvailableSeats (CancelReservation pendingWorld "R").1 "showtime1" =
        (pendingWorld, [], some (GoError.Errorf "TODO: implement GetAvailableSeats")) ∧
      seat1 ∉ (GetAvailableSeats (CancelReservation pendingWorld "R").1 "showtime1").2.1 := by
  refine ⟨?_, rfl, ?_, ?_, ?_, rfl, ?_⟩
  · simp [findReservation, pendingWorld, pendingR]
  · simp [CancelReservation]
  · simp [CancelReservation, findReservation, pendingWorld, pendingR]
  · simp [CancelReservation, isLocked, pendingWorld, lock1, lockKey]
  · simp [GetAvailableSeats]

/-! ## C10: the availability query -/

/-- C10. At the fresh showtime the seats that are AVAILABLE and unlocked are
seat1 and seat2, yet GetAvailableSeats returns the empty list with the non-nil
error "TODO: implement GetAvailableSeats". The claim asks for no error and
exactly those seats. -/
theorem getAvailableSeats_returns_error :
    availableSeatsSpec freshWorld "showtime1" = [seat1, seat2] ∧
      GetAvailableSeats freshWorld "showtime1" =
        (freshWorld, [], some (GoError.Errorf "TODO: implement GetAvailableSeats")) ∧
      (GetAvailableSeats freshWorld "showtime1").2.2 ≠ none ∧
      (GetAvailableSeats freshWorld "showtime1").2.1 ≠
        availableSeatsSpec freshWorld "showtime1" := by
  have hspec : availableSeatsSpec freshWorld "showtime1" = [seat1, seat2] := by
    simp [availableSeatsSpec, isLocked, freshWorld, seat1, seat2]
  refine ⟨hspec, rfl, ?_, ?_⟩
  · simp [GetAvailableSeats]
  · rw [hspec]
    simp [GetAvailableSeats]

/-! ## C11: every operation returns its TODO error -/

theorem isTodoError_errorf (msg : String) :
    IsTodoError (some (GoError.Errorf msg)) msg := by
  refine ⟨by simp, rfl, ?_⟩
  intro s hs
  simp only [sentinels, List.mem_cons, List.mem_singleton, List.not_mem_nil, or_false] at hs
  rcases hs with rfl | rfl | rfl
  · simp [ErrSeatUnavailable]
  · simp [ErrReservationNotFound]
  · simp [ErrNotYourReservation]

/-- C11. For every input and every state of the two stores, each of the four
operations returns a non-nil error and leaves both stores as they were, and
what it returns is the same in any other state of the stores (it reads
neither store): LockSeats returns the empty reservation id, GetAvailableSeats
returns the nil seat list, and the error is in every case a TODO error made
during the call, which is none of ErrSeatUnavailable, ErrReservationNotFound
and ErrNotYourReservation. -/
theorem operations_return_todo_error (w w₂ : World) (userID : String)
    (req : LockSeatsRequest) (reservationID showtimeID : String) :
    ((LockSeats w userID req).1 = w ∧
        (LockSeats w userID req).2.1 = "" ∧
        IsTodoError (LockSeats w userID req).2.2 "TODO: implement LockSeats" ∧
        (LockSeats w₂ userID req).2 = (LockSeats w userID req).2) ∧
      ((ConfirmReservation w reservationID userID).1 = w ∧
        IsTodoError (ConfirmReservation w reservationID userID).2
          "TODO: implement ConfirmReservation" ∧
        (ConfirmReservation w₂ reservationID userID).2 =
          (ConfirmReservation w reservationID userID).2) ∧
      ((GetAvailableSeats w showtimeID).1 = w ∧
        (GetAvailableSeats w showtimeID).2.1 = [] ∧
        IsTodoError (GetAvailableSeats w showtimeID).2.2
          "TODO: implement GetAvailableSeats" ∧
        (GetAvailableSeats w₂ showtimeID).2 = (GetAvailableSeats w showtimeID).2) ∧
      ((CancelReservation w reservationID).1 = w ∧
        IsTodoError (CancelReservation w reservationID).2
          "TODO: implement CancelReservation" ∧
        (CancelReservation w₂ reservationID).2 = (CancelReservation w reservationID).2) :=
  ⟨⟨rfl, rfl, isTodoError_errorf _, rfl⟩,
    ⟨rfl, isTodoError_errorf _, rfl⟩,
    ⟨rfl, rfl, isTodoError_errorf _, rfl⟩,
    ⟨rfl, isTodoError_errorf _, rfl⟩⟩

end MovieReservation
